import Mathlib

/-!
Verification development for the pomodoro/task tracker repository.

The core state-bearing modules are embedded shallowly:

* `Pomodoro` — the timer state machine and session ledger of
  `src/store/pomodoroStore.ts` (`startTimer`, `pauseTimer`, `resumeTimer`,
  `stopTimer`, `tick`, `completeSession`).
* `Tasks` — the task registry of `src/store/taskStore.ts` (`addTask`,
  `updateTask`, `deleteTask`, `toggleTaskStatus`, `incrementTomato`,
  `decrementTomato`) and the storage-backed `TaskService.updateTask`.
* `Stats` — the pure aggregation functions of the stats store
  (`calculateDailyStats`, `calculateOverallStats`).

Modelling conventions: JavaScript `number` fields that hold whole seconds or
counts are embedded as `Int`/`Nat`; results of JavaScript `/` division are
embedded as `ℚ` (exact division — the concrete values used in the theorems
below are exactly representable, so no float-rounding subtlety is involved).
Timestamps produced by `new Date().toISOString()` and ids produced by
`generateId()` are opaque strings passed in as explicit parameters.
-/

namespace Pomodoro

/-- `PomodoroType` from `src/types/pomodoro.ts`:
`'focus' | 'short-break' | 'long-break'`. -/
inductive PType where
  | focus
  | shortBreak
  | longBreak
deriving DecidableEq, Repr

/-- `PomodoroStatus` from `src/types/pomodoro.ts`:
`'running' | 'paused' | 'completed' | 'cancelled'`. -/
inductive SStatus where
  | running
  | paused
  | completed
  | cancelled
deriving DecidableEq, Repr

/-- `PomodoroSession` from `src/types/pomodoro.ts` (the optional `notes`
field is never touched by the store and is omitted). -/
structure Session where
  id : String
  taskId : String
  startTime : String
  endTime : Option String
  duration : Int
  plannedDuration : Int
  type : PType
  status : SStatus
  interruptions : Int
deriving DecidableEq, Repr

/-- `PomodoroSettings` from `src/types/pomodoro.ts`. Durations are minutes. -/
structure Settings where
  focusDuration : Int
  shortBreakDuration : Int
  longBreakDuration : Int
  longBreakInterval : Nat
  autoStartBreaks : Bool
  autoStartPomodoros : Bool
  soundEnabled : Bool
  notificationEnabled : Bool
deriving DecidableEq, Repr

/-- `defaultSettings` from `src/store/pomodoroStore.ts`. -/
def defaultSettings : Settings :=
  { focusDuration := 25
    shortBreakDuration := 5
    longBreakDuration := 15
    longBreakInterval := 4
    autoStartBreaks := false
    autoStartPomodoros := false
    soundEnabled := true
    notificationEnabled := true }

/-- `PomodoroTimer` from `src/types/pomodoro.ts`. -/
structure Timer where
  currentSession : Option Session
  remainingTime : Int
  isRunning : Bool
  isPaused : Bool
  currentType : PType
  completedPomodoros : Nat
  currentCycle : Nat
deriving DecidableEq, Repr

/-- `initialTimer` from `src/store/pomodoroStore.ts`. -/
def initialTimer : Timer :=
  { currentSession := none
    remainingTime := 25 * 60
    isRunning := false
    isPaused := false
    currentType := PType.focus
    completedPomodoros := 0
    currentCycle := 1 }

/-- The store state the timer actions read and write: `timer`, `settings`,
`sessions` and `currentTaskId` (the `loading`/`error` fields of the store are
never read by the timer actions and only `startTimer` clears `error`). -/
structure State where
  timer : Timer
  settings : Settings
  sessions : List Session
  currentTaskId : Option String
deriving DecidableEq, Repr

/-- The initial store state. -/
def initialState : State :=
  { timer := initialTimer
    settings := defaultSettings
    sessions := []
    currentTaskId := none }

/-- The configured duration, in seconds, of a phase type — the ternary chain
computing `plannedDuration` in `startTimer` (minutes × 60). -/
def configuredDuration (t : PType) (settings : Settings) : Int :=
  match t with
  | PType.focus => settings.focusDuration * 60
  | PType.shortBreak => settings.shortBreakDuration * 60
  | PType.longBreak => settings.longBreakDuration * 60

/-- `startTimer` from `src/store/pomodoroStore.ts`. `sid` stands for the
generated session id and `now` for `new Date().toISOString()`. -/
def startTimer (sid now : String) (taskId : Option String) (s : State) : State :=
  if s.timer.isRunning then s
  else
    let newSession : Session :=
      { id := sid
        taskId := (taskId.orElse fun _ => s.currentTaskId).getD ""
        startTime := now
        endTime := none
        duration := 0
        plannedDuration := configuredDuration s.timer.currentType s.settings
        type := s.timer.currentType
        status := SStatus.running
        interruptions := 0 }
    { s with
      timer := { s.timer with
        isRunning := true
        isPaused := false
        currentSession := some newSession }
      sessions := s.sessions ++ [newSession]
      currentTaskId := taskId.orElse fun _ => s.currentTaskId }

/-- `pauseTimer` from `src/store/pomodoroStore.ts`: unconditionally sets
`isRunning := false` and `isPaused := true`. -/
def pauseTimer (s : State) : State :=
  { s with timer := { s.timer with isRunning := false, isPaused := true } }

/-- `resumeTimer` from `src/store/pomodoroStore.ts`. -/
def resumeTimer (s : State) : State :=
  if s.timer.isPaused then
    { s with timer := { s.timer with isRunning := true, isPaused := false } }
  else s

/-- `stopTimer` from `src/store/pomodoroStore.ts`. -/
def stopTimer (now : String) (s : State) : State :=
  match s.timer.currentSession with
  | none => s
  | some cs =>
    let updatedSessions := s.sessions.map fun sess =>
      if sess.id = cs.id then
        { sess with
          endTime := some now
          status := SStatus.cancelled
          duration := cs.plannedDuration - s.timer.remainingTime }
      else sess
    { s with
      timer := { initialTimer with
        currentType := s.timer.currentType
        completedPomodoros := s.timer.completedPomodoros
        currentCycle := s.timer.currentCycle }
      sessions := updatedSessions }

/-- `completeSession` from `src/store/pomodoroStore.ts`. -/
def completeSession (now : String) (s : State) : State :=
  match s.timer.currentSession with
  | none => s
  | some cs =>
    let updatedSessions := s.sessions.map fun sess =>
      if sess.id = cs.id then
        { sess with
          endTime := some now
          status := SStatus.completed
          duration := sess.plannedDuration }
      else sess
    if s.timer.currentType = PType.focus then
      let completedPomodoros := s.timer.completedPomodoros + 1
      if completedPomodoros % s.settings.longBreakInterval = 0 then
        { s with
          timer := { currentSession := none
                     remainingTime := s.settings.longBreakDuration * 60
                     isRunning := false
                     isPaused := false
                     currentType := PType.longBreak
                     completedPomodoros := completedPomodoros
                     currentCycle := s.timer.currentCycle }
          sessions := updatedSessions }
      else
        { s with
          timer := { currentSession := none
                     remainingTime := s.settings.shortBreakDuration * 60
                     isRunning := false
                     isPaused := false
                     currentType := PType.shortBreak
                     completedPomodoros := completedPomodoros
                     currentCycle := s.timer.currentCycle }
          sessions := updatedSessions }
    else
      { s with
        timer := { currentSession := none
                   remainingTime := s.settings.focusDuration * 60
                   isRunning := false
                   isPaused := false
                   currentType := PType.focus
                   completedPomodoros := s.timer.completedPomodoros
                   currentCycle := s.timer.currentCycle + 1 }
        sessions := updatedSessions }

/-- `tick` from `src/store/pomodoroStore.ts`. -/
def tick (now : String) (s : State) : State :=
  if !s.timer.isRunning || s.timer.isPaused then s
  else if s.timer.remainingTime > 0 then
    { s with timer := { s.timer with remainingTime := s.timer.remainingTime - 1 } }
  else
    completeSession now s

/-- A concrete session record, used to instantiate theorems. -/
def sampleSession : Session :=
  { id := "s1"
    taskId := "t1"
    startTime := "2024-01-01T08:00:00.000Z"
    endTime := none
    duration := 0
    plannedDuration := 1500
    type := PType.focus
    status := SStatus.running
    interruptions := 0 }

/-- A concrete store state with a running focus session. -/
def runningState : State :=
  { timer := { currentSession := some sampleSession
               remainingTime := 1500
               isRunning := true
               isPaused := false
               currentType := PType.focus
               completedPomodoros := 0
               currentCycle := 1 }
    settings := defaultSettings
    sessions := [sampleSession]
    currentTaskId := none }

/-- A concrete store state at the end of a running focus session
(`remainingTime = 0`), with `autoStartBreaks` switched on. -/
def autoStartState : State :=
  { timer := { currentSession := some sampleSession
               remainingTime := 0
               isRunning := true
               isPaused := false
               currentType := PType.focus
               completedPomodoros := 0
               currentCycle := 1 }
    settings := { defaultSettings with autoStartBreaks := true }
    sessions := [sampleSession]
    currentTaskId := none }

end Pomodoro

namespace Tasks

/-- `TaskStatus`: `'todo' | 'in-progress' | 'completed' | 'cancelled'`
(spec §3; the cyclic toggle in `taskStore.ts` handles the first three and
sends anything else to `todo` through its `default` branch). -/
inductive TStatus where
  | todo
  | inProgress
  | completed
  | cancelled
deriving DecidableEq, Repr

/-- Task category: `'work' | 'study' | 'life' | 'other'`. -/
inductive TCategory where
  | work
  | study
  | life
  | other
deriving DecidableEq, Repr

/-- Task priority: `'low' | 'medium' | 'high' | 'urgent'`. -/
inductive TPriority where
  | low
  | medium
  | high
  | urgent
deriving DecidableEq, Repr

/-- The `Task` record (spec §3 data model, as consumed by
`src/store/taskStore.ts`). -/
structure Task where
  id : String
  title : String
  description : Option String
  category : TCategory
  priority : TPriority
  status : TStatus
  plannedTomatoes : Int
  completedTomatoes : Int
  scheduledDate : String
  createdAt : String
  updatedAt : String
  completedAt : Option String
deriving DecidableEq, Repr

/-- `TaskFormData`: the user-supplied fields consumed by `addTask`. -/
structure TaskFormData where
  title : String
  description : Option String
  category : TCategory
  priority : TPriority
  plannedTomatoes : Int
  scheduledDate : String
deriving DecidableEq, Repr

/-- `Partial<Task>` as accepted by `updateTask`: present fields overwrite. -/
structure TaskUpdates where
  id : Option String := none
  title : Option String := none
  description : Option (Option String) := none
  category : Option TCategory := none
  priority : Option TPriority := none
  status : Option TStatus := none
  plannedTomatoes : Option Int := none
  completedTomatoes : Option Int := none
  scheduledDate : Option String := none
  completedAt : Option (Option String) := none
deriving DecidableEq, Repr

/-- The store state the task actions read and write (`tasks` and `error`;
`filter` and `loading` are never touched by the actions below). -/
structure TaskState where
  tasks : List Task
  error : Option String
deriving DecidableEq, Repr

/-- `addTask` from `src/store/taskStore.ts`: appends a fresh task with
`status = todo` and `completedTomatoes = 0`, clearing `error`. -/
def addTask (tid now : String) (d : TaskFormData) (s : TaskState) : TaskState :=
  let newTask : Task :=
    { id := tid
      title := d.title
      description := d.description
      category := d.category
      priority := d.priority
      status := TStatus.todo
      plannedTomatoes := d.plannedTomatoes
      completedTomatoes := 0
      scheduledDate := d.scheduledDate
      createdAt := now
      updatedAt := now
      completedAt := none }
  { tasks := s.tasks ++ [newTask], error := none }

/-- The object spread `{ ...task, ...updates }` of `updateTask`. -/
def applyUpdates (u : TaskUpdates) (t : Task) : Task :=
  { id := u.id.getD t.id
    title := u.title.getD t.title
    description := u.description.getD t.description
    category := u.category.getD t.category
    priority := u.priority.getD t.priority
    status := u.status.getD t.status
    plannedTomatoes := u.plannedTomatoes.getD t.plannedTomatoes
    completedTomatoes := u.completedTomatoes.getD t.completedTomatoes
    scheduledDate := u.scheduledDate.getD t.scheduledDate
    createdAt := t.createdAt
    updatedAt := t.updatedAt
    completedAt := u.completedAt.getD t.completedAt }

/-- `updateTask` from `src/store/taskStore.ts`: maps over the list, merging
the updates into the matching task and stamping `updatedAt`; `error` is set
to `none` whether or not any task matched. -/
def updateTask (now id : String) (u : TaskUpdates) (s : TaskState) : TaskState :=
  { tasks := s.tasks.map fun t =>
      if t.id = id then { applyUpdates u t with updatedAt := now } else t
    error := none }

/-- `deleteTask` from `src/store/taskStore.ts`: filters the id out; `error`
is set to `none` whether or not any task matched. -/
def deleteTask (id : String) (s : TaskState) : TaskState :=
  { tasks := s.tasks.filter fun t => t.id != id
    error := none }

/-- The `switch` of `toggleTaskStatus` (its `default` branch yields todo). -/
def nextStatus : TStatus → TStatus
  | TStatus.todo => TStatus.inProgress
  | TStatus.inProgress => TStatus.completed
  | TStatus.completed => TStatus.todo
  | TStatus.cancelled => TStatus.todo

/-- `toggleTaskStatus` from `src/store/taskStore.ts`: cycles the status and
sets `completedAt` only on a transition into `completed`, clearing it
otherwise. -/
def toggleTaskStatus (now id : String) (s : TaskState) : TaskState :=
  { tasks := s.tasks.map fun t =>
      if t.id = id then
        let newStatus := nextStatus t.status
        { t with
          status := newStatus
          completedAt := if newStatus = TStatus.completed then some now else none
          updatedAt := now }
      else t
    error := none }

/-- `incrementTomato` from `src/store/taskStore.ts`. -/
def incrementTomato (now id : String) (s : TaskState) : TaskState :=
  { tasks := s.tasks.map fun t =>
      if t.id = id then
        { t with completedTomatoes := t.completedTomatoes + 1, updatedAt := now }
      else t
    error := none }

/-- `decrementTomato` from `src/store/taskStore.ts`: decrements only when
the matching task's count is positive. -/
def decrementTomato (now id : String) (s : TaskState) : TaskState :=
  { tasks := s.tasks.map fun t =>
      if t.id = id ∧ t.completedTomatoes > 0 then
        { t with completedTomatoes := t.completedTomatoes - 1, updatedAt := now }
      else t
    error := none }

/-- The merge performed by `TaskService.updateTask` in
`src/services/taskService.ts`: spread the request over the stored task, stamp
`updatedAt`, and set `completedAt` when the request completes a task that had
no `completedAt` yet. -/
def serviceApplyUpdate (now : String) (u : TaskUpdates) (t : Task) : Task :=
  let merged := { applyUpdates u t with updatedAt := now }
  if u.status = some TStatus.completed ∧ t.completedAt = none then
    { merged with completedAt := some now }
  else merged

/-- `TaskService.updateTask` from `src/services/taskService.ts`: locates the
first task with the request's id and replaces it; a missing id throws
`任务不存在`, which the surrounding catch rethrows to the caller as the
generic failure `更新任务失败`. -/
def serviceUpdateTask (now id : String) (u : TaskUpdates) :
    List Task → Except String (List Task)
  | [] => Except.error "更新任务失败"
  | t :: ts =>
    if t.id = id then Except.ok (serviceApplyUpdate now u t :: ts)
    else
      match serviceUpdateTask now id u ts with
      | Except.error e => Except.error e
      | Except.ok ts2 => Except.ok (t :: ts2)

/-- Registry mutations for the `completedTomatoes` invariant: the three
operations the claim names, plus the other mutators that never write
`completedTomatoes`. -/
inductive RegistryOp where
  | add (tid now : String) (d : TaskFormData)
  | del (id : String)
  | toggle (now id : String)
  | inc (now id : String)
  | dec (now id : String)

/-- Interpret one registry operation. -/
def applyOp : RegistryOp → TaskState → TaskState
  | RegistryOp.add tid now d => addTask tid now d
  | RegistryOp.del id => deleteTask id
  | RegistryOp.toggle now id => toggleTaskStatus now id
  | RegistryOp.inc now id => incrementTomato now id
  | RegistryOp.dec now id => decrementTomato now id

/-- Interpret a sequence of registry operations, oldest first. -/
def applyOps (ops : List RegistryOp) (s : TaskState) : TaskState :=
  ops.foldl (fun st op => applyOp op st) s

/-- Every task in the registry has a nonnegative completed-tomato count. -/
def tomatoesNonneg (s : TaskState) : Prop :=
  ∀ t ∈ s.tasks, 0 ≤ t.completedTomatoes

/-- A concrete task, used to instantiate theorems. -/
def sampleTask : Task :=
  { id := "a"
    title := "write report"
    description := none
    category := TCategory.work
    priority := TPriority.medium
    status := TStatus.todo
    plannedTomatoes := 2
    completedTomatoes := 0
    scheduledDate := "2024-01-01"
    createdAt := "2024-01-01T07:00:00.000Z"
    updatedAt := "2024-01-01T07:00:00.000Z"
    completedAt := none }

end Tasks

namespace Stats

open Pomodoro (Session SStatus PType)
open Tasks (Task TStatus)

/-- JavaScript `String.prototype.startsWith`, modelled as a prefix test on
the character sequence. -/
def strStartsWith (s pre : String) : Bool :=
  pre.data.isPrefixOf s.data

/-- The `daySessions` filter of `calculateDailyStats` in the stats store:
the day's completed focus sessions
(`session.startTime.startsWith(date) && status === 'completed' &&
type === 'focus'`). -/
def daySessions (date : String) (sessions : List Session) : List Session :=
  sessions.filter fun sess =>
    strStartsWith sess.startTime date &&
      decide (sess.status = SStatus.completed) && decide (sess.type = PType.focus)

/-- The `dayTasks` filter of `calculateDailyStats`. -/
def dayTasks (date : String) (tasks : List Task) : List Task :=
  tasks.filter fun t => t.scheduledDate == date

/-- The scalar fields of `DailyStats` (the per-category breakdown is not
needed by any claim and is omitted). -/
structure DailyStats where
  date : String
  completedTasks : Nat
  completedTomatoes : Nat
  focusTime : ℚ
deriving DecidableEq, Repr

/-- `calculateDailyStats` from the stats store: filters the day's tasks and
completed focus sessions, counts them, and converts the summed focus
duration to minutes by dividing by 60 (plain `/`, applied once after the
summation). -/
def calculateDailyStats (date : String) (tasks : List Task)
    (sessions : List Session) : DailyStats :=
  let ds := daySessions date sessions
  { date := date
    completedTasks := ((dayTasks date tasks).filter fun t =>
      decide (t.status = TStatus.completed)).length
    completedTomatoes := ds.length
    focusTime := ((ds.map fun sess => (sess.duration : ℚ)).sum) / 60 }

/-- The fields of `OverallStats` referenced by the claims (the streak/
favorite-category/most-productive-day fields are not needed by any claim
and are omitted). -/
structure OverallStats where
  totalDays : Nat
  totalTasks : Nat
  totalTomatoes : Nat
  totalFocusTime : ℚ
  averageDailyTomatoes : ℚ
  completionRate : ℚ
deriving DecidableEq, Repr

/-- `calculateOverallStats` from the stats store: the completion rate is
`(completedTasks / totalTasks) * 100` with plain `/` (no rounding), and `0`
when `totalTasks = 0`; active days are the distinct calendar dates bearing a
completed focus session. -/
def calculateOverallStats (tasks : List Task) (sessions : List Session) :
    OverallStats :=
  let completedSessions := sessions.filter fun sess =>
    decide (sess.status = SStatus.completed) && decide (sess.type = PType.focus)
  let completedTasks := tasks.filter fun t => decide (t.status = TStatus.completed)
  let totalTasks := tasks.length
  let totalTomatoes := completedSessions.length
  let activeDays := ((completedSessions.map fun sess =>
      ((sess.startTime.splitOn "T").headD "")).dedup).length
  { totalDays := activeDays
    totalTasks := totalTasks
    totalTomatoes := totalTomatoes
    totalFocusTime := ((completedSessions.map fun sess =>
      (sess.duration : ℚ)).sum) / 60
    averageDailyTomatoes :=
      if activeDays > 0 then (totalTomatoes : ℚ) / (activeDays : ℚ) else 0
    completionRate :=
      if totalTasks > 0 then
        ((completedTasks.length : ℚ) / (totalTasks : ℚ)) * 100
      else 0 }

/-- A concrete completed focus session lasting 90 seconds. -/
def focusSession90 : Session :=
  { id := "s90"
    taskId := "t1"
    startTime := "2024-01-01T08:00:00.000Z"
    endTime := some "2024-01-01T08:01:30.000Z"
    duration := 90
    plannedDuration := 1500
    type := PType.focus
    status := SStatus.completed
    interruptions := 0 }

/-- Three concrete tasks of which exactly one is completed. -/
def threeTasksOneDone : List Task :=
  [ { Tasks.sampleTask with status := TStatus.completed },
    { Tasks.sampleTask with id := "b" },
    { Tasks.sampleTask with id := "c" } ]

end Stats

namespace Pomodoro

/-- A state whose timer is not running is left unchanged by `tick`. -/
theorem tick_of_not_running (now : String) (s : State)
    (h : s.timer.isRunning = false) : tick now s = s := by
  simp [tick, h]

/-- After `completeSession` resolves an existing session, the timer is never
left running (the auto-start settings are not consulted). -/
theorem completeSession_isRunning_false (now : String) (s : State) (cs : Session)
    (h : s.timer.currentSession = some cs) :
    (completeSession now s).timer.isRunning = false := by
  simp only [completeSession, h]
  split <;> (try split) <;> rfl

/-- C1: while running and not paused, a `tick` with `remainingTime > 0`
decreases `remainingTime` by exactly 1 and never below 0; with nonnegative
configured durations, nonnegativity of `remainingTime` is preserved by every
`tick`; and once `remainingTime` has reached 0, the next `tick` is exactly
`completeSession`, after which (when a current session existed) the timer is
no longer running, so any further `tick` leaves the state unchanged — phase
completion fires exactly once for that reaching of 0. -/
theorem tick_decrements_and_completes_once (now : String) (s : State)
    (hrun : s.timer.isRunning = true) (hpause : s.timer.isPaused = false) :
    (0 < s.timer.remainingTime →
      (tick now s).timer.remainingTime = s.timer.remainingTime - 1 ∧
      0 ≤ (tick now s).timer.remainingTime) ∧
    (0 ≤ s.settings.focusDuration → 0 ≤ s.settings.shortBreakDuration →
      0 ≤ s.settings.longBreakDuration → 0 ≤ s.timer.remainingTime →
      0 ≤ (tick now s).timer.remainingTime) ∧
    (s.timer.remainingTime = 0 →
      tick now s = completeSession now s ∧
      ∀ cs, s.timer.currentSession = some cs →
        (tick now s).timer.isRunning = false ∧
        ∀ now2, tick now2 (tick now s) = tick now s) := by
  have hguard : (!s.timer.isRunning || s.timer.isPaused) = false := by
    rw [hrun, hpause]; rfl
  refine ⟨?_, ?_, ?_⟩
  · intro hpos
    simp only [tick, hguard, Bool.false_eq_true, if_false, if_pos hpos]
    exact ⟨by simp, by omega⟩
  · intro hf hs hl hnn
    rcases lt_or_eq_of_le hnn with hpos | hzero
    · simp only [tick, hguard, Bool.false_eq_true, if_false, if_pos hpos]
      omega
    · have hnpos : ¬ s.timer.remainingTime > 0 := by omega
      simp only [tick, hguard, Bool.false_eq_true, if_false, if_neg hnpos]
      cases hc : s.timer.currentSession with
      | none => simp only [completeSession, hc]; omega
      | some cs =>
        simp only [completeSession, hc]
        split <;> (try split) <;> simp <;> positivity
  · intro hzero
    have hnpos : ¬ s.timer.remainingTime > 0 := by omega
    have heq : tick now s = completeSession now s := by
      simp only [tick, hguard, Bool.false_eq_true, if_false, if_neg hnpos]
    refine ⟨heq, ?_⟩
    intro cs hcs
    have hstop : (tick now s).timer.isRunning = false := by
      rw [heq]; exact completeSession_isRunning_false now s cs hcs
    exact ⟨hstop, fun now2 => tick_of_not_running now2 _ hstop⟩

/-- C1 witness: the theorem applied at the concrete running state
`runningState` (1500 seconds left). -/
theorem tick_decrements_and_completes_once_witness :
    runningState.timer.isRunning = true ∧
    runningState.timer.isPaused = false ∧
    0 < runningState.timer.remainingTime ∧
    (tick "t" runningState).timer.remainingTime =
      runningState.timer.remainingTime - 1 :=
  ⟨rfl, rfl, by decide,
    ((tick_decrements_and_completes_once "t" runningState rfl rfl).1
      (by decide)).1⟩

/-- C2: completing a focus phase increments `completedPomodoros` and routes
to the long break exactly when the incremented count is divisible by
`longBreakInterval` (otherwise to the short break), leaving `currentCycle`
unchanged; completing a break phase routes back to focus and increments
`currentCycle`, leaving `completedPomodoros` unchanged; with
`longBreakInterval = 4`, the 4th focus completion routes to the long break. -/
theorem completeSession_phase_routing (now : String) (s : State) (cs : Session)
    (hcs : s.timer.currentSession = some cs) :
    (s.timer.currentType = PType.focus →
      (completeSession now s).timer.completedPomodoros =
        s.timer.completedPomodoros + 1 ∧
      (completeSession now s).timer.currentType =
        (if (s.timer.completedPomodoros + 1) % s.settings.longBreakInterval = 0
         then PType.longBreak else PType.shortBreak) ∧
      (completeSession now s).timer.currentCycle = s.timer.currentCycle) ∧
    (s.timer.currentType ≠ PType.focus →
      (completeSession now s).timer.currentType = PType.focus ∧
      (completeSession now s).timer.currentCycle = s.timer.currentCycle + 1 ∧
      (completeSession now s).timer.completedPomodoros =
        s.timer.completedPomodoros) ∧
    (s.settings.longBreakInterval = 4 → s.timer.currentType = PType.focus →
      s.timer.completedPomodoros = 3 →
      (completeSession now s).timer.currentType = PType.longBreak) := by
  refine ⟨?_, ?_, ?_⟩
  · intro hf
    simp only [completeSession, hcs, if_pos hf]
    split
    next h => simp [h]
    next h => simp [h]
  · intro hf
    simp only [completeSession, hcs, if_neg hf]
    exact ⟨trivial, trivial, trivial⟩
  · intro h4 hf h3
    simp only [completeSession, hcs, if_pos hf, h4, h3]
    norm_num

/-- C2 witness: at `runningState` (a focus phase, 0 pomodoros so far,
interval 4), completion yields 1 pomodoro and a short break; and at the same
state with 3 completed pomodoros, completion routes to the long break. -/
theorem completeSession_phase_routing_witness :
    ((completeSession "t" runningState).timer.completedPomodoros = 1 ∧
     (completeSession "t" runningState).timer.currentType = PType.shortBreak) ∧
    (completeSession "t"
        { runningState with
          timer := { runningState.timer with
            completedPomodoros := 3 } }).timer.currentType = PType.longBreak := by
  have h1 := completeSession_phase_routing "t" runningState sampleSession rfl
  have h2 := completeSession_phase_routing "t"
    { runningState with
      timer := { runningState.timer with completedPomodoros := 3 } }
    sampleSession rfl
  refine ⟨⟨(h1.1 rfl).1, ?_⟩, h2.2.2 rfl rfl rfl⟩
  have := (h1.1 rfl).2.1
  simpa using this

/-- C3 (code bug): at a finished focus phase whose settings have
`autoStartBreaks = true`, `completeSession` does reset `remainingTime` to the
configured duration of the next phase (`short-break`, 5 × 60 seconds) and does
clear the current-session reference, but it leaves `isRunning = false` even
though `autoStartBreaks` is `true`: the auto-start settings declared in
`PomodoroSettings` are never consulted by `completeSession`. -/
theorem completeSession_ignores_autostart :
    autoStartState.settings.autoStartBreaks = true ∧
    (completeSession "t" autoStartState).timer.currentType = PType.shortBreak ∧
    (completeSession "t" autoStartState).timer.remainingTime =
      configuredDuration PType.shortBreak autoStartState.settings ∧
    (completeSession "t" autoStartState).timer.currentSession = none ∧
    (completeSession "t" autoStartState).timer.isRunning = false ∧
    (completeSession "t" autoStartState).timer.isPaused = false := by
  decide

/-- C4: when a current session exists, `stopTimer` sets the timer to idle
(not running, not paused, no current session), preserves the pomodoro count,
cycle count and phase type, finalizes every ledger entry bearing the current
session's id as `cancelled` with duration = plannedDuration − remainingTime,
and leaves every other ledger entry untouched. -/
theorem stopTimer_cancels_and_preserves (now : String) (s : State) (cs : Session)
    (hcs : s.timer.currentSession = some cs) :
    (stopTimer now s).timer.isRunning = false ∧
    (stopTimer now s).timer.isPaused = false ∧
    (stopTimer now s).timer.currentSession = none ∧
    (stopTimer now s).timer.completedPomodoros = s.timer.completedPomodoros ∧
    (stopTimer now s).timer.currentCycle = s.timer.currentCycle ∧
    (stopTimer now s).timer.currentType = s.timer.currentType ∧
    ∀ (i : Nat) (sess : Session), s.sessions[i]? = some sess →
      (sess.id = cs.id →
        ∃ sess2, (stopTimer now s).sessions[i]? = some sess2 ∧
          sess2.status = SStatus.cancelled ∧
          sess2.duration = cs.plannedDuration - s.timer.remainingTime ∧
          sess2.endTime = some now ∧
          sess2.id = sess.id ∧ sess2.taskId = sess.taskId ∧
          sess2.plannedDuration = sess.plannedDuration) ∧
      (sess.id ≠ cs.id → (stopTimer now s).sessions[i]? = some sess) := by
  simp only [stopTimer, hcs]
  refine ⟨by trivial, by trivial, by trivial, by trivial, by trivial,
    by trivial, ?_⟩
  intro i sess hi
  rw [List.getElem?_map, hi]
  constructor
  · intro hid
    simp only [Option.map_some', if_pos hid]
    exact ⟨_, rfl, rfl, rfl, rfl, rfl, rfl, rfl⟩
  · intro hid
    simp only [Option.map_some', if_neg hid]

/-- C4 witness: stopping at `runningState` with 300 seconds elapsed. -/
theorem stopTimer_cancels_and_preserves_witness :
    (stopTimer "t"
        { runningState with
          timer := { runningState.timer with
            remainingTime := 1200 } }).timer.isRunning = false ∧
    (stopTimer "t"
        { runningState with
          timer := { runningState.timer with
            remainingTime := 1200 } }).timer.currentType =
      runningState.timer.currentType := by
  have h := stopTimer_cancels_and_preserves "t"
    { runningState with
      timer := { runningState.timer with remainingTime := 1200 } }
    sampleSession rfl
  exact ⟨h.1, h.2.2.2.2.2.1⟩

/-- `pauseTimer` rewrites only the two flags; every other component of the
store state is preserved (amended form of the pause contract: it is not a
no-op on an idle timer — it unconditionally marks the timer paused). -/
theorem pauseTimer_unconditional (s : State) :
    (pauseTimer s).timer.isRunning = false ∧
    (pauseTimer s).timer.isPaused = true ∧
    (pauseTimer s).timer.remainingTime = s.timer.remainingTime ∧
    (pauseTimer s).timer.currentSession = s.timer.currentSession ∧
    (pauseTimer s).timer.currentType = s.timer.currentType ∧
    (pauseTimer s).timer.completedPomodoros = s.timer.completedPomodoros ∧
    (pauseTimer s).timer.currentCycle = s.timer.currentCycle ∧
    (pauseTimer s).sessions = s.sessions ∧
    (pauseTimer s).settings = s.settings ∧
    (pauseTimer s).currentTaskId = s.currentTaskId :=
  ⟨rfl, rfl, rfl, rfl, rfl, rfl, rfl, rfl, rfl, rfl⟩

/-- C5 counterexample: on the idle initial state (not running, no session),
`pauseTimer` is not a no-op — it flips `isPaused` from `false` to `true`, so
the state is not left unchanged. -/
theorem pauseTimer_idle_not_noop :
    initialState.timer.isRunning = false ∧
    initialState.timer.isPaused = false ∧
    initialState.timer.currentSession = none ∧
    (pauseTimer initialState).timer.isPaused = true ∧
    pauseTimer initialState ≠ initialState := by
  refine ⟨rfl, rfl, rfl, rfl, ?_⟩
  intro h
  have h2 := congrArg (fun st => st.timer.isPaused) h
  simp [pauseTimer, initialState, initialTimer] at h2

end Pomodoro

namespace Tasks

/-- Mapping a function that fixes every non-matching task over a list
containing no matching task is the identity. -/
theorem map_eq_self_of_no_match (id : String) (f : Task → Task)
    (hf : ∀ t, t.id ≠ id → f t = t) :
    ∀ l : List Task, (∀ t ∈ l, t.id ≠ id) → l.map f = l := by
  intro l habs
  induction l with
  | nil => rfl
  | cons t ts ih =>
    have h1 : f t = t := hf t (habs t (List.mem_cons_self t ts))
    have h2 := ih fun x hx => habs x (List.mem_cons_of_mem t hx)
    simp [h1, h2]

/-- `TaskService.updateTask` reports an error whenever no task matches. -/
theorem serviceUpdateTask_not_found (now id : String) (u : TaskUpdates) :
    ∀ l : List Task, (∀ t ∈ l, t.id ≠ id) →
      serviceUpdateTask now id u l = Except.error "更新任务失败" := by
  intro l
  induction l with
  | nil => intro _; rfl
  | cons t ts ih =>
    intro habs
    have hne : ¬ t.id = id := habs t (List.mem_cons_self t ts)
    have hrec := ih fun x hx => habs x (List.mem_cons_of_mem t hx)
    simp only [serviceUpdateTask, if_neg hne, hrec]

/-- C6 amended: for an id absent from the registry, the store's `updateTask`
and `deleteTask` are silent no-ops — the task list is unchanged and the error
field is reset to `none`, exactly as after a successful call — while only the
service-layer `TaskService.updateTask` reports the failure, as the error
`更新任务失败` produced by its catch around the thrown `任务不存在`. -/
theorem update_delete_missing_id_noop (now id : String) (u : TaskUpdates)
    (s : TaskState) (habs : ∀ t ∈ s.tasks, t.id ≠ id) :
    (updateTask now id u s).tasks = s.tasks ∧
    (updateTask now id u s).error = none ∧
    (deleteTask id s).tasks = s.tasks ∧
    (deleteTask id s).error = none ∧
    serviceUpdateTask now id u s.tasks = Except.error "更新任务失败" := by
  refine ⟨?_, rfl, ?_, rfl, serviceUpdateTask_not_found now id u s.tasks habs⟩
  · exact map_eq_self_of_no_match id _ (fun t ht => if_neg ht) s.tasks habs
  · show s.tasks.filter (fun t => t.id != id) = s.tasks
    rw [List.filter_eq_self]
    intro t ht
    simpa using habs t ht

/-- C6 witness: the amended theorem at the concrete one-task registry. -/
theorem update_delete_missing_id_noop_witness :
    (updateTask "n" "b" {} { tasks := [sampleTask], error := some "prev" }).tasks
      = [sampleTask] ∧
    serviceUpdateTask "n" "b" {} [sampleTask] = Except.error "更新任务失败" := by
  have h := update_delete_missing_id_noop "n" "b" {}
    { tasks := [sampleTask], error := some "prev" } (by decide)
  exact ⟨h.1, h.2.2.2.2⟩

/-- C6 counterexample: updating or deleting the absent id `"b"` yields the
state `⟨[sampleTask], none⟩` — task list unchanged and error field cleared to
`none`, identical to a successful no-op, with no failure signalled. -/
theorem update_delete_missing_id_counterexample :
    updateTask "2024-01-02T09:00:00.000Z" "b" {}
        { tasks := [sampleTask], error := some "previous failure" } =
      { tasks := [sampleTask], error := none } ∧
    deleteTask "b" { tasks := [sampleTask], error := some "previous failure" } =
      { tasks := [sampleTask], error := none } := by
  decide

/-- C9: starting from a task with status `todo`, three `toggleTaskStatus`
calls walk the full cycle todo → in-progress → completed → todo, with
`completedAt` set (to the second call's timestamp) on the transition into
`completed` and cleared back to `undefined` by the third call. -/
theorem toggle_three_times_cycle (n1 n2 n3 id : String) (s : TaskState)
    (i : Nat) (t : Task) (hi : s.tasks[i]? = some t)
    (hid : t.id = id) (hst : t.status = TStatus.todo) :
    ((toggleTaskStatus n1 id s).tasks[i]?.map Task.status) =
      some TStatus.inProgress ∧
    ((toggleTaskStatus n2 id (toggleTaskStatus n1 id s)).tasks[i]?.map
        Task.status) = some TStatus.completed ∧
    ((toggleTaskStatus n2 id (toggleTaskStatus n1 id s)).tasks[i]?.map
        Task.completedAt) = some (some n2) ∧
    ((toggleTaskStatus n3 id (toggleTaskStatus n2 id
        (toggleTaskStatus n1 id s))).tasks[i]?.map Task.status) =
      some TStatus.todo ∧
    ((toggleTaskStatus n3 id (toggleTaskStatus n2 id
        (toggleTaskStatus n1 id s))).tasks[i]?.map Task.completedAt) =
      some none := by
  simp only [toggleTaskStatus, List.getElem?_map, hi, Option.map_some']
  simp [hid, hst, nextStatus]

/-- C9 witness: the full cycle at the concrete one-task registry. -/
theorem toggle_three_times_cycle_witness :
    ((toggleTaskStatus "n3" "a" (toggleTaskStatus "n2" "a"
        (toggleTaskStatus "n1" "a"
          { tasks := [sampleTask], error := none }))).tasks[0]?.map
        Task.status) = some TStatus.todo ∧
    ((toggleTaskStatus "n2" "a" (toggleTaskStatus "n1" "a"
        { tasks := [sampleTask], error := none })).tasks[0]?.map
        Task.completedAt) = some (some "n2") := by
  have h := toggle_three_times_cycle "n1" "n2" "n3" "a"
    { tasks := [sampleTask], error := none } 0 sampleTask rfl rfl rfl
  exact ⟨h.2.2.2.1, h.2.2.1⟩

/-- One registry operation preserves nonnegativity of every task's
completed-tomato count. -/
theorem applyOp_tomatoesNonneg (op : RegistryOp) (s : TaskState)
    (h : tomatoesNonneg s) : tomatoesNonneg (applyOp op s) := by
  cases op with
  | add tid now d =>
    intro t ht
    simp only [applyOp, addTask] at ht
    rcases List.mem_append.mp ht with hmem | hmem
    · exact h t hmem
    · rw [List.mem_singleton] at hmem
      subst hmem
      exact le_refl 0
  | del id =>
    intro t ht
    simp only [applyOp, deleteTask] at ht
    exact h t (List.mem_of_mem_filter ht)
  | toggle now id =>
    intro t ht
    simp only [applyOp, toggleTaskStatus] at ht
    rcases List.mem_map.mp ht with ⟨u, hu, hut⟩
    subst hut
    by_cases hc : u.id = id
    · rw [if_pos hc]
      exact h u hu
    · rw [if_neg hc]
      exact h u hu
  | inc now id =>
    intro t ht
    simp only [applyOp, incrementTomato] at ht
    rcases List.mem_map.mp ht with ⟨u, hu, hut⟩
    subst hut
    by_cases hc : u.id = id
    · rw [if_pos hc]
      have hu0 := h u hu
      show 0 ≤ u.completedTomatoes + 1
      omega
    · rw [if_neg hc]
      exact h u hu
  | dec now id =>
    intro t ht
    simp only [applyOp, decrementTomato] at ht
    rcases List.mem_map.mp ht with ⟨u, hu, hut⟩
    subst hut
    by_cases hc : u.id = id ∧ u.completedTomatoes > 0
    · rw [if_pos hc]
      have hpos := hc.2
      show 0 ≤ u.completedTomatoes - 1
      omega
    · rw [if_neg hc]
      exact h u hu

/-- Any sequence of registry operations preserves the invariant. -/
theorem applyOps_tomatoesNonneg (ops : List RegistryOp) (s : TaskState)
    (h : tomatoesNonneg s) : tomatoesNonneg (applyOps ops s) := by
  induction ops generalizing s with
  | nil => exact h
  | cons op ops ih => exact ih (applyOp op s) (applyOp_tomatoesNonneg op s h)

/-- C10: starting from a registry whose tasks all have nonnegative
completed-tomato counts, every sequence of registry operations preserves
that invariant; `addTask` only ever introduces tasks with count 0;
`incrementTomato` adds exactly 1 with no upper clamp; and `decrementTomato`
on a task whose count is 0 returns that task completely unchanged. -/
theorem completedTomatoes_nonneg_invariant (ops : List RegistryOp)
    (s : TaskState) (hinv : tomatoesNonneg s) :
    tomatoesNonneg (applyOps ops s) ∧
    (∀ tid now d, ∀ t ∈ (addTask tid now d s).tasks,
        t ∈ s.tasks ∨ t.completedTomatoes = 0) ∧
    (∀ now id (i : Nat) (t : Task), s.tasks[i]? = some t → t.id = id →
        ((incrementTomato now id s).tasks[i]?.map Task.completedTomatoes) =
          some (t.completedTomatoes + 1)) ∧
    (∀ now id (i : Nat) (t : Task), s.tasks[i]? = some t → t.id = id →
        t.completedTomatoes = 0 →
        (decrementTomato now id s).tasks[i]? = some t) := by
  refine ⟨applyOps_tomatoesNonneg ops s hinv, ?_, ?_, ?_⟩
  · intro tid now d t ht
    simp only [addTask] at ht
    rcases List.mem_append.mp ht with hmem | hmem
    · exact Or.inl hmem
    · right
      rw [List.mem_singleton] at hmem
      subst hmem
      rfl
  · intro now id i t hi hid
    simp only [incrementTomato, List.getElem?_map, hi, Option.map_some',
      if_pos hid]
  · intro now id i t hi hid h0
    have hcond : ¬ (t.id = id ∧ t.completedTomatoes > 0) := by
      intro hc
      omega
    simp only [decrementTomato, List.getElem?_map, hi, Option.map_some',
      if_neg hcond]

/-- C10 witness: a decrement on the zero-count `sampleTask` leaves it
unchanged, and a decrement-then-increment sequence keeps the invariant. -/
theorem completedTomatoes_nonneg_invariant_witness :
    tomatoesNonneg (applyOps [RegistryOp.dec "n1" "a", RegistryOp.inc "n2" "a"]
      { tasks := [sampleTask], error := none }) ∧
    (decrementTomato "n1" "a"
        { tasks := [sampleTask], error := none }).tasks[0]? = some sampleTask := by
  have h := completedTomatoes_nonneg_invariant
    [RegistryOp.dec "n1" "a", RegistryOp.inc "n2" "a"]
    { tasks := [sampleTask], error := none }
    (by
      intro t ht
      rw [List.mem_singleton] at ht
      subst ht
      exact le_refl 0)
  exact ⟨h.1, h.2.2.2 "n1" "a" 0 sampleTask rfl rfl rfl⟩

end Tasks

namespace Stats

open Pomodoro (Session SStatus PType)
open Tasks (Task TStatus)

/-- Dividing a list's sum equals summing the per-element quotients. -/
theorem list_sum_div (l : List ℚ) (b : ℚ) :
    l.sum / b = (l.map fun x => x / b).sum := by
  induction l with
  | nil => simp
  | cons x xs ih => simp [List.sum_cons, add_div, ih]

/-- C7 amended: the daily focus time is the summed focus seconds divided by
60 exactly once after summation, with exact (non-truncating) division —
multiplying back by 60 recovers the summed seconds, and by linearity the
value also equals the sum of the per-session exact quotients. -/
theorem dailyFocusTime_exact_after_summation (date : String)
    (tasks : List Task) (sessions : List Session) :
    (calculateDailyStats date tasks sessions).focusTime * 60 =
      ((daySessions date sessions).map fun sess => (sess.duration : ℚ)).sum ∧
    (calculateDailyStats date tasks sessions).focusTime =
      ((daySessions date sessions).map fun sess =>
        (sess.duration : ℚ) / 60).sum := by
  constructor
  · show (((daySessions date sessions).map fun sess =>
      (sess.duration : ℚ)).sum / 60) * 60 = _
    rw [div_mul_cancel₀]
    norm_num
  · show (((daySessions date sessions).map fun sess =>
      (sess.duration : ℚ)).sum / 60) = _
    rw [list_sum_div, List.map_map]
    rfl

/-- C7 counterexample: one completed 90-second focus session on 2024-01-01
yields `focusTime = 3/2` minutes (exact quotient), whereas truncating integer
division of the summed seconds — what the claim states — gives `90 / 60 = 1`,
a different value. -/
theorem dailyFocusTime_not_truncated :
    (calculateDailyStats "2024-01-01" [] [focusSession90]).focusTime = 3 / 2 ∧
    (90 : Int) / 60 = 1 ∧
    (calculateDailyStats "2024-01-01" [] [focusSession90]).focusTime ≠
      (((90 : Int) / 60 : Int) : ℚ) := by
  have hday : daySessions "2024-01-01" [focusSession90] = [focusSession90] := by
    decide
  have hft : (calculateDailyStats "2024-01-01" [] [focusSession90]).focusTime =
      (90 : ℚ) / 60 := by
    show ((daySessions "2024-01-01" [focusSession90]).map fun sess =>
      (sess.duration : ℚ)).sum / 60 = (90 : ℚ) / 60
    rw [hday]
    norm_num [focusSession90]
  refine ⟨by rw [hft]; norm_num, by decide, ?_⟩
  rw [hft]
  norm_num

/-- C8 amended: the overall completion rate is the exact, unrounded ratio —
`completedTasks / totalTasks × 100` — and `0` when there are no tasks. -/
theorem completionRate_exact_ratio (tasks : List Task)
    (sessions : List Session) :
    (tasks.length = 0 →
      (calculateOverallStats tasks sessions).completionRate = 0) ∧
    (0 < tasks.length →
      (calculateOverallStats tasks sessions).completionRate *
          (tasks.length : ℚ) =
        ((tasks.filter fun t =>
          decide (t.status = TStatus.completed)).length : ℚ) * 100) := by
  have hrate : (calculateOverallStats tasks sessions).completionRate =
      if tasks.length > 0 then
        (((tasks.filter fun t =>
          decide (t.status = TStatus.completed)).length : ℚ) /
            (tasks.length : ℚ)) * 100
      else 0 := rfl
  constructor
  · intro h0
    rw [hrate, if_neg (by omega)]
  · intro hpos
    rw [hrate, if_pos (by omega)]
    have hne : (tasks.length : ℚ) ≠ 0 := by
      exact_mod_cast Nat.pos_iff_ne_zero.mp hpos
    field_simp

/-- C8 witness: the amended theorem at three tasks, one completed. -/
theorem completionRate_exact_ratio_witness :
    (calculateOverallStats threeTasksOneDone []).completionRate * 3 = 100 := by
  have h := (completionRate_exact_ratio threeTasksOneDone []).2 (by decide)
  have hfil : ((threeTasksOneDone.filter fun t =>
      decide (t.status = TStatus.completed)).length) = 1 := by decide
  have hlen : threeTasksOneDone.length = 3 := by decide
  rw [hfil, hlen] at h
  norm_num at h
  exact_mod_cast h

/-- C8 counterexample: with 3 tasks of which 1 is completed, the code's
completion rate is exactly `100/3` — not an integer, and in particular not
the nearest-integer rounding `33` that the claim states. -/
theorem completionRate_not_rounded :
    (calculateOverallStats threeTasksOneDone []).completionRate = 100 / 3 ∧
    round ((100 : ℚ) / 3) = 33 ∧
    (calculateOverallStats threeTasksOneDone []).completionRate ≠ 33 := by
  have hrate : (calculateOverallStats threeTasksOneDone []).completionRate =
      ((1 : ℚ) / 3) * 100 := by
    show (if threeTasksOneDone.length > 0 then
        (((threeTasksOneDone.filter fun t =>
          decide (t.status = TStatus.completed)).length : ℚ) /
            (threeTasksOneDone.length : ℚ)) * 100
      else 0) = _
    rw [if_pos (by decide)]
    have hfil : ((threeTasksOneDone.filter fun t =>
        decide (t.status = TStatus.completed)).length) = 1 := by decide
    have hlen : threeTasksOneDone.length = 3 := by decide
    rw [hfil, hlen]
    norm_num
  refine ⟨by rw [hrate]; norm_num, ?_, by rw [hrate]; norm_num⟩
  rw [round_eq]
  norm_num

end Stats
